import Mathlib

/-!
Shallow embedding of the chunk height/appearance synthesis engine of the
terrain generator (src/addons/terrain_generator/src/chunkGen/chunk_generator.cpp,
with the superseded revision src/addons/terrain_generator/src/chunk_gen.cpp).

Modelling conventions:
- C++ float arithmetic is modelled exactly over the rationals.
- A C cast from float to int truncates toward zero; this is modelled by
  dividing the numerator of a rational by its denominator with
  truncated division.
- The C++ operator % on int is truncated remainder, modelled by Int.tmod.
- Godot images are modelled as a width, a height and a pixel function;
  get_pixel queries only land inside the image bounds in the claims we
  state, so the pixel function is total.
- Equality comparisons such as sqrt(e) < 0.2 with e a sum of squares are
  modelled by the equivalent squared comparison e < 0.04 (both sides of
  the original comparison are nonnegative and squaring is monotone).
- Godot dictionaries keyed by Vector2i or by strings of the shape
  weights_x_y are modelled as association lists keyed by integer pairs.
-/

/-- Color models godot Color: four float channels. -/
structure Color where
  r : ℚ
  g : ℚ
  b : ℚ
  a : ℚ
deriving DecidableEq

/-- NoiseImage models a godot Image used as a baked noise raster:
get_width, get_height and get_pixel. -/
structure NoiseImage where
  width : Int
  height : Int
  pix : Int → Int → Color

/-- ImageTex models a cached ImageTexture artifact produced by the chunk
generator (square image of side size with a pixel function). -/
structure ImageTex where
  size : Int
  pix : Int → Int → Color

/-- cTrunc models the C cast (int)v on a float value: truncation toward
zero, which for a rational num/den is truncated integer division. -/
def cTrunc (q : ℚ) : Int := q.num.tdiv q.den

/-- wrapIndex models the C++ wrap formula ((int)v % w + w) % w with the
truncated remainder semantics of the C++ operator %. -/
def wrapIndex (v w : Int) : Int := (v.tmod w + w).tmod w

/-- clampI models Math::clamp on int values. -/
def clampI (x lo hi : Int) : Int := if x < lo then lo else if x > hi then hi else x

/-- sampleImageRed models the sampling pattern of compute_height
(chunk_generator.cpp lines 682-694 and 745-757): wrap both world
coordinates into the image bounds, clamp, and read the red channel. -/
def sampleImageRed (img : NoiseImage) (wx wy : ℚ) : ℚ :=
  let sx := clampI (wrapIndex (cTrunc wx) img.width) 0 (img.width - 1)
  let sy := clampI (wrapIndex (cTrunc wy) img.height) 0 (img.height - 1)
  (img.pix sx sy).r

/-- sampleImageRedWrap models the sampling pattern of
generate_biome_blend_texture_with_data (lines 482-487), which wraps but
does not clamp. -/
def sampleImageRedWrap (img : NoiseImage) (wx wy : Int) : ℚ :=
  let sx := wrapIndex wx img.width
  let sy := wrapIndex wy img.height
  (img.pix sx sy).r

/-- BiomeData models the biome_data Dictionary handed to the generator:
its top-level keys as cast to Vector2i (the source casts every key,
including the string keys, when deriving a chunk size), the colors
sub-dictionary when present, and the weights sub-dictionary whose string
keys weights_x_y are modelled as integer pairs. -/
structure BiomeData where
  topKeys : List (Int × Int)
  colors : Option (List ((Int × Int) × Color))
  weights : List ((Int × Int) × List (String × ℚ))

/-- GenState models the fields of ChunkGenerator that the claims touch.
hasBiomeTex b holds when m_biomeNoises contains key b with a valid
texture (the source only inserts valid textures). biomeTexImage b is the
image of that texture when get_image() is valid, cachedBiomeNoiseImages
is m_cachedBiomeNoiseImages, blendNoiseImage is m_blendNoiseImage, and
noiseBlendTexImage is the image m_noiseBlend would currently yield. -/
structure GenState where
  chunkSize : Int
  heightMultiplier : ℚ
  blendNoiseImage : Option NoiseImage
  noiseBlendTexImage : Option NoiseImage
  hasBiomeTex : String → Bool
  cachedBiomeNoiseImages : String → Option NoiseImage
  biomeTexImage : String → Option NoiseImage
  blendCache : List ((Int × Int) × ImageTex)
  heightCache : List ((Int × Int) × ImageTex)

/-- whiteColor is the fallback biome color Color(1,1,1) (alpha defaults
to 1 in godot). -/
def whiteColor : Color := ⟨1, 1, 1, 1⟩

/-- biomeColorAt models the first block of compute_height (lines
656-676): wrap the world position into local chunk coordinates, then
look the color up in the colors sub-dictionary, falling back to white. -/
def biomeColorAt (st : GenState) (bd : BiomeData) (world_x world_y : ℚ) : Color :=
  let local_x := wrapIndex (cTrunc world_x) st.chunkSize
  let local_y := wrapIndex (cTrunc world_y) st.chunkSize
  match bd.colors with
  | some colors =>
      match colors.lookup (local_x, local_y) with
      | some c => c
      | none => whiteColor
  | none => whiteColor

/-- blendFactorOf models lines 678-695 of compute_height: sample the red
channel of the blend noise image at the wrapped position, defaulting to
0.5 = 1/2 when the image is not valid. -/
def blendFactorOf (st : GenState) (world_x world_y : ℚ) : ℚ :=
  match st.blendNoiseImage with
  | some img => sampleImageRed img world_x world_y
  | none => 1/2

/-- deadZoneWeight models the stepped blending logic of lines 697-708:
below blend_min the weight is 0, above blend_max it is 1, else a linear
ramp. The float literals blend_min = 0.4 and blend_max = 0.6 are written
as the exact fractions 2/5 and 3/5. -/
def deadZoneWeight (blend_factor : ℚ) : ℚ :=
  if blend_factor < 2/5 then 0
  else if blend_factor > 3/5 then 1
  else (blend_factor - 2/5) / (3/5 - 2/5)

/-- sectionBiomePair models lines 710-729 of compute_height: pick the two
biomes to blend from the section color. The source compares
sqrt((r-0.8)^2+(g-0.8)^2+(b-0.8)^2) with the tolerance 0.2; we state the
equivalent squared comparison with 0.04 = 1/25, writing the float
literals 0.8 and 0.7 as the exact fractions 4/5 and 7/10 and pow(x,2)
as x*x. -/
def sectionBiomePair (c : Color) : String × String :=
  if (c.r - 4/5) * (c.r - 4/5) + (c.g - 4/5) * (c.g - 4/5) + (c.b - 4/5) * (c.b - 4/5)
      < 1/25 then
    ("corral", "sand")
  else if c.r > 7/10 then
    ("rock", "kelp")
  else
    ("rock", "lavarock")

/-- sampleBiomeHeight models lines 731-760 (and the identical block
763-791) of compute_height: when m_biomeNoises holds a valid texture for
the biome, use the cached image if present, else the image of the
texture when valid; sample its red channel; in every other case the
height contribution stays 0. The source also inserts the freshly read
image into the cache; that write does not change the returned value and
the cache state is threaded explicitly where a claim needs it. -/
def sampleBiomeHeight (st : GenState) (biome : String) (world_x world_y : ℚ) : ℚ :=
  if st.hasBiomeTex biome then
    match st.cachedBiomeNoiseImages biome with
    | some img => sampleImageRed img world_x world_y
    | none =>
        match st.biomeTexImage biome with
        | some img => sampleImageRed img world_x world_y
        | none => 0
  else 0

/-- compute_height embeds ChunkGenerator::compute_height
(chunk_generator.cpp lines 655-796). Note that the weights entry of
biome_data is never read. -/
def compute_height (st : GenState) (world_x world_y : ℚ) (bd : BiomeData) : ℚ :=
  let biome_color := biomeColorAt st bd world_x world_y
  let blend_factor := blendFactorOf st world_x world_y
  let weight := deadZoneWeight blend_factor
  let pr := sectionBiomePair biome_color
  let height1 := sampleBiomeHeight st pr.1 world_x world_y
  let height2 := sampleBiomeHeight st pr.2 world_x world_y
  height1 * (1 - weight) + height2 * weight

/-- is_boss_area embeds ChunkGenerator::is_boss_area (lines 847-849). -/
def is_boss_area (c : Color) : Bool := c = ⟨1, 0, 0, 1⟩

/-- lodResolution embeds the LOD logic of generate_chunk_with_biome_data
(lines 274-279). The float comparison sqrt(cx*cx+cy*cy) > t for the
integer thresholds t = 6, 12, 20 is stated as the exact equivalent
squared comparison cx*cx+cy*cy > t*t. The source applies the three
conditions in sequence, each overwriting the previous resolution. -/
def lodResolution (chunkSize cx cy : Int) : Int :=
  let d2 := cx * cx + cy * cy
  if d2 > 400 then 8
  else if d2 > 144 then 16
  else if d2 > 36 then chunkSize
  else chunkSize * 2

/-- buildVertices embeds the vertex loop of generate_chunk_with_biome_data
(lines 287-306): a grid of (res+1)^2 positions, each with the blended
height scaled by m_heightMultiplier. -/
def buildVertices (st : GenState) (cx cy : Int) (bd : BiomeData) (res : Nat) :
    List (ℚ × ℚ × ℚ) :=
  (List.range (res + 1)).flatMap fun z =>
    (List.range (res + 1)).map fun x =>
      let xpos : ℚ := (x : ℚ) / (res : ℚ) * (st.chunkSize : ℚ)
      let zpos : ℚ := (z : ℚ) / (res : ℚ) * (st.chunkSize : ℚ)
      let worldX : ℚ := (cx : ℚ) * (st.chunkSize : ℚ) + xpos
      let worldZ : ℚ := (cy : ℚ) * (st.chunkSize : ℚ) + zpos
      (xpos, compute_height st worldX worldZ bd * st.heightMultiplier, zpos)

/-- buildUVs embeds the UV pushes of the same loop (line 304). -/
def buildUVs (res : Nat) : List (ℚ × ℚ) :=
  (List.range (res + 1)).flatMap fun z =>
    (List.range (res + 1)).map fun x =>
      ((x : ℚ) / (res : ℚ), (z : ℚ) / (res : ℚ))

/-- quadIndices embeds the six index pushes for one grid quad
(lines 311-318). -/
def quadIndices (res z x : Nat) : List Nat :=
  let i := z * (res + 1) + x
  [i, i + 1, i + (res + 1), i + 1, i + (res + 1) + 1, i + (res + 1)]

/-- buildIndices embeds the index loop of generate_chunk_with_biome_data
(lines 309-320). -/
def buildIndices (res : Nat) : List Nat :=
  (List.range res).flatMap fun z =>
    (List.range res).flatMap fun x => quadIndices res z x

/-- generate_chunk_mesh embeds the geometry part of
ChunkGenerator::generate_chunk_with_biome_data (lines 257-326): pick the
LOD resolution, then produce the vertex, UV and index buffers. -/
def generate_chunk_mesh (st : GenState) (cx cy : Int) (bd : BiomeData) :
    List (ℚ × ℚ × ℚ) × List (ℚ × ℚ) × List Nat :=
  let res := (lodResolution st.chunkSize cx cy).toNat
  (buildVertices st cx cy bd res, buildUVs res, buildIndices res)

/-- find_chunk_size_from_data embeds
ChunkGenerator::find_chunk_size_from_data (lines 616-628): fold the
maxima of key.x + 1 and key.y + 1 over the top-level dictionary keys
(cast to Vector2i) and return the larger of the two. -/
def find_chunk_size_from_data (keys : List (Int × Int)) : Int :=
  let m := keys.foldl (fun (acc : Int × Int) k => (max acc.1 (k.1 + 1), max acc.2 (k.2 + 1))) (0, 0)
  if m.1 > m.2 then m.1 else m.2

/-- blendTexPixel models the pixel loop body of
generate_biome_blend_texture_with_data (lines 461-494): section color in
the RGB channels, blend factor (red channel of the blend noise at the
wrapped world position, default 0.5) in the alpha channel. -/
def blendTexPixel (blendImg : Option NoiseImage) (colors : List ((Int × Int) × Color))
    (cs cx cy x y : Int) : Color :=
  let biome_color := (colors.lookup (x, y)).getD whiteColor
  let world_x := cx * cs + x
  let world_y := cy * cs + y
  let blend_factor :=
    match blendImg with
    | some img => sampleImageRedWrap img world_x world_y
    | none => 1/2
  ⟨biome_color.r, biome_color.g, biome_color.b, blend_factor⟩

/-- generate_biome_blend_texture embeds
ChunkGenerator::generate_biome_blend_texture_with_data (lines 411-505)
as a state passing function: return the cached texture when present;
else derive the chunk size from the data when the configured one is not
positive; abort with an absent texture when the size is still not
positive or the colors dictionary is missing; otherwise rasterize the
pixels, cache and return the texture. The refresh of m_blendNoiseImage
from m_noiseBlend (line 448) is modelled before the rasterization. -/
def generate_biome_blend_texture (st : GenState) (cx cy : Int) (bd : BiomeData) :
    Option ImageTex × GenState :=
  match st.blendCache.lookup (cx, cy) with
  | some tex => (some tex, st)
  | none =>
      let cs := if st.chunkSize ≤ 0 then find_chunk_size_from_data bd.topKeys else st.chunkSize
      let st1 := { st with chunkSize := cs }
      if cs ≤ 0 then (none, st1)
      else
        match bd.colors with
        | none => (none, st1)
        | some colors =>
            let st2 :=
              match st1.blendNoiseImage with
              | some _ => st1
              | none => { st1 with blendNoiseImage := st1.noiseBlendTexImage }
            let tex : ImageTex :=
              ⟨cs, fun x y => blendTexPixel st2.blendNoiseImage colors cs cx cy x y⟩
            (some tex, { st2 with blendCache := ((cx, cy), tex) :: st2.blendCache })

/-- generate_heightmap_texture embeds
ChunkGenerator::generate_heightmap_texture_with_data (lines 576-613):
return the cached texture when present, else rasterize the blended
height per pixel into a grayscale image of side m_chunkSize, cache and
return it. The source performs no chunk size validation here. -/
def generate_heightmap_texture (st : GenState) (cx cy : Int) (bd : BiomeData) :
    Option ImageTex × GenState :=
  match st.heightCache.lookup (cx, cy) with
  | some tex => (some tex, st)
  | none =>
      let tex : ImageTex :=
        ⟨st.chunkSize, fun x y =>
          let h := compute_height st ((cx * st.chunkSize + x : Int) : ℚ)
            ((cy * st.chunkSize + y : Int) : ℚ) bd
          ⟨h, h, h, 1⟩⟩
      (some tex, { st with heightCache := ((cx, cy), tex) :: st.heightCache })

/-- chunkOutsideRange models the eviction predicate of
cleanup_chunk_caches (lines 804-805): a chunk coordinate is evicted when
it falls outside the inclusive rectangle [min_chunk, max_chunk]. -/
def chunkOutsideRange (p mn mx : Int × Int) : Bool :=
  p.1 < mn.1 || p.1 > mx.1 || p.2 < mn.2 || p.2 > mx.2

/-- keysToRemove models the first pass of cleanup_chunk_caches
(lines 801-808, 816-823): collect, in iteration order, the keys of the
entries outside the rectangle. -/
def keysToRemove (cache : List ((Int × Int) × ImageTex)) (mn mx : Int × Int) :
    List (Int × Int) :=
  (cache.filter fun e => chunkOutsideRange e.1 mn mx).map Prod.fst

/-- eraseKey models HashMap::erase on the association list model:
remove the first entry with the given key. -/
def eraseKey (cache : List ((Int × Int) × ImageTex)) (k : Int × Int) :
    List ((Int × Int) × ImageTex) :=
  cache.eraseP fun e => e.1 == k

/-- eraseKeys models the second pass of cleanup_chunk_caches
(lines 810-813, 825-828): erase each collected key in turn. -/
def eraseKeys (cache : List ((Int × Int) × ImageTex)) (ks : List (Int × Int)) :
    List ((Int × Int) × ImageTex) :=
  ks.foldl eraseKey cache

/-- cleanup_chunk_caches embeds ChunkGenerator::cleanup_chunk_caches
(lines 799-832): both texture caches drop every entry whose coordinate
is outside the inclusive rectangle. -/
def cleanup_chunk_caches (st : GenState) (mn mx : Int × Int) : GenState :=
  { st with
    blendCache := eraseKeys st.blendCache (keysToRemove st.blendCache mn mx),
    heightCache := eraseKeys st.heightCache (keysToRemove st.heightCache mn mx) }

/-- redInRange states that every pixel of an image has its red channel
inside [0, 1], as godot guarantees for the 8-bit formats the generator
uses. -/
def NoiseImage.redInRange (img : NoiseImage) : Prop :=
  ∀ x y, 0 ≤ (img.pix x y).r ∧ (img.pix x y).r ≤ 1

/-- noiseRedsInRange states redInRange for every noise image the state
can hand to compute_height. -/
def GenState.noiseRedsInRange (st : GenState) : Prop :=
  (∀ img, st.blendNoiseImage = some img → img.redInRange) ∧
  (∀ b img, st.cachedBiomeNoiseImages b = some img → img.redInRange) ∧
  (∀ b img, st.biomeTexImage b = some img → img.redInRange)

/-- constOneImage is a one-pixel noise image whose red channel is 1. -/
def constOneImage : NoiseImage := ⟨1, 1, fun _ _ => ⟨1, 1, 1, 1⟩⟩

/-- constZeroImage is a one-pixel noise image whose red channel is 0. -/
def constZeroImage : NoiseImage := ⟨1, 1, fun _ _ => ⟨0, 0, 0, 1⟩⟩

/-- baseState is a generator state with chunk size 1 and nothing loaded. -/
def baseState : GenState :=
  { chunkSize := 1
    heightMultiplier := 1
    blendNoiseImage := none
    noiseBlendTexImage := none
    hasBiomeTex := fun _ => false
    cachedBiomeNoiseImages := fun _ => none
    biomeTexImage := fun _ => none
    blendCache := []
    heightCache := [] }

/-- stRockOne is baseState with a cached all-one rock noise image. -/
def stRockOne : GenState :=
  { baseState with
    hasBiomeTex := fun b => b == "rock"
    cachedBiomeNoiseImages := fun b => if b == "rock" then some constOneImage else none }

/-- stRockZero is stRockOne with the rock noise image replaced by the
all-zero image; the two states differ in nothing else. -/
def stRockZero : GenState :=
  { baseState with
    hasBiomeTex := fun b => b == "rock"
    cachedBiomeNoiseImages := fun b => if b == "rock" then some constZeroImage else none }

/-- stZeroSize is baseState with the invalid chunk size 0. -/
def stZeroSize : GenState := { baseState with chunkSize := 0 }

/-- emptyBiomeData is a biome_data dictionary with no entries at all. -/
def emptyBiomeData : BiomeData := ⟨[], none, []⟩

/-- bdZeroWeights carries a white color at the only local position of a
size-1 chunk and a weight map in which every weight is 0. -/
def bdZeroWeights : BiomeData :=
  ⟨[], some [((0, 0), whiteColor)],
    [((0, 0), [("corral", 0), ("sand", 0), ("rock", 0), ("kelp", 0), ("lavarock", 0)])]⟩

/-- bdBoss carries the boss sentinel color Color(1,0,0,1) at the only
local position of a size-1 chunk. -/
def bdBoss : BiomeData := ⟨[], some [((0, 0), ⟨1, 0, 0, 1⟩)], []⟩

/-- bdKeys33 has a single top-level Vector2i key (3,3), so the derived
chunk size heuristic would yield 4. -/
def bdKeys33 : BiomeData := ⟨[(3, 3)], none, []⟩

/-- texA, texB and texC are distinct placeholder cached textures. -/
def texA : ImageTex := ⟨1, fun _ _ => ⟨0, 0, 0, 1⟩⟩

/-- texB is a second placeholder cached texture. -/
def texB : ImageTex := ⟨2, fun _ _ => ⟨0, 0, 0, 1⟩⟩

/-- texC is a third placeholder cached texture. -/
def texC : ImageTex := ⟨3, fun _ _ => ⟨0, 0, 0, 1⟩⟩

/-- stCache is baseState with artifacts cached for the chunk coordinates
(0,0), (1,1) and (2,2) in both caches. -/
def stCache : GenState :=
  { baseState with
    blendCache := [((0, 0), texA), ((1, 1), texB), ((2, 2), texC)]
    heightCache := [((0, 0), texA), ((1, 1), texB), ((2, 2), texC)] }

/-- Lower bound for the truncated remainder at a positive modulus. -/
theorem neg_lt_tmod (a : Int) {b : Int} (hb : 0 < b) : -b < a.tmod b := by
  rcases a with m | m
  · have h : 0 ≤ (Int.ofNat m).tmod b := Int.tmod_nonneg b (Int.ofNat_nonneg m)
    linarith
  · rcases b with n | n
    · have hn : 0 < n := by simpa [Int.ofNat_eq_coe] using hb
      have hdef : (Int.negSucc m).tmod (Int.ofNat n) = -Int.ofNat (Nat.succ m % n) := rfl
      rw [hdef]
      have hmod : Nat.succ m % n < n := Nat.mod_lt _ hn
      simp only [Int.ofNat_eq_coe, neg_lt_neg_iff]
      exact_mod_cast hmod
    · exact absurd hb (not_lt.mpr (le_of_lt (Int.negSucc_lt_zero n)))

/-- The double-mod wrap formula agrees with the Euclidean remainder. -/
theorem wrapIndex_eq_emod (v w : Int) (hw : 0 < w) : wrapIndex v w = v.emod w := by
  unfold wrapIndex
  have hub : v.tmod w < w := Int.tmod_lt_of_pos v hw
  have hlb : -w < v.tmod w := neg_lt_tmod v hw
  have hnn : 0 ≤ v.tmod w + w := by linarith
  rw [Int.tmod_eq_emod hnn (le_of_lt hw)]
  have hdef : v.tmod w = v - w * (v.tdiv w) := by
    have h := Int.tmod_add_tdiv v w
    linarith
  rw [hdef]
  have hre : v - w * v.tdiv w + w = v + w * (1 - v.tdiv w) := by ring
  rw [hre, Int.add_mul_emod_self_left]
  rfl

theorem wrapIndex_nonneg (v w : Int) (hw : 0 < w) : 0 ≤ wrapIndex v w := by
  rw [wrapIndex_eq_emod v w hw]
  exact Int.emod_nonneg v (by omega)

theorem wrapIndex_lt (v w : Int) (hw : 0 < w) : wrapIndex v w < w := by
  rw [wrapIndex_eq_emod v w hw]
  exact Int.emod_lt_of_pos v hw

theorem wrapIndex_period (v w : Int) (hw : 0 < w) : wrapIndex (v + w) w = wrapIndex v w := by
  rw [wrapIndex_eq_emod _ w hw, wrapIndex_eq_emod v w hw]
  have hre : v + w = v + w * 1 := by ring
  show (v + w) % w = v % w
  rw [hre, Int.add_mul_emod_self_left]

/-- The dead-zone weight always lands in [0, 1]. -/
theorem deadZoneWeight_mem (bf : ℚ) : 0 ≤ deadZoneWeight bf ∧ deadZoneWeight bf ≤ 1 := by
  unfold deadZoneWeight
  split_ifs with h1 h2
  · norm_num
  · norm_num
  · push_neg at h1 h2
    constructor
    · apply div_nonneg <;> norm_num
      linarith
    · rw [div_le_one (by norm_num)]
      linarith

/-- Sampling the red channel of an in-range image stays in [0, 1]. -/
theorem sampleImageRed_mem (img : NoiseImage) (hr : img.redInRange) (wx wy : ℚ) :
    0 ≤ sampleImageRed img wx wy ∧ sampleImageRed img wx wy ≤ 1 := by
  unfold sampleImageRed
  exact hr _ _

/-- A biome height sample of a state with in-range noise images stays in
[0, 1]. -/
theorem sampleBiomeHeight_mem (st : GenState) (hst : st.noiseRedsInRange)
    (biome : String) (wx wy : ℚ) :
    0 ≤ sampleBiomeHeight st biome wx wy ∧ sampleBiomeHeight st biome wx wy ≤ 1 := by
  obtain ⟨-, hcached, htex⟩ := hst
  unfold sampleBiomeHeight
  split_ifs with h
  · rcases hc : st.cachedBiomeNoiseImages biome with - | img
    · rcases ht : st.biomeTexImage biome with - | img
      · simp [hc, ht]
      · simpa [hc, ht] using sampleImageRed_mem img (htex biome img ht) wx wy
    · simpa [hc] using sampleImageRed_mem img (hcached biome img hc) wx wy
  · norm_num

/-- Looking a key up after filtering by a key predicate gives nothing
when the key fails the predicate. -/
theorem lookup_filter_eq_none (c : List ((Int × Int) × ImageTex))
    (q : (Int × Int) → Bool) (p : Int × Int) (hq : q p = false) :
    ((c.filter fun e => q e.1).lookup p) = none := by
  induction c with
  | nil => rfl
  | cons e t ih =>
      by_cases hk : q e.1 = true
      · simp only [List.filter_cons, hk, if_true]
        by_cases hpe : p = e.1
        · rw [hpe] at hq
          rw [hk] at hq
          cases hq
        · have hbeq : (p == e.1) = false := beq_eq_false_iff_ne.mpr hpe
          simp only [List.lookup, hbeq]
          exact ih
      · simp only [List.filter_cons, hk, if_false]
        exact ih

/-- Looking a key up after filtering by a key predicate is unchanged when
the key passes the predicate. -/
theorem lookup_filter_eq_lookup (c : List ((Int × Int) × ImageTex))
    (q : (Int × Int) → Bool) (p : Int × Int) (hq : q p = true) :
    ((c.filter fun e => q e.1).lookup p) = c.lookup p := by
  induction c with
  | nil => rfl
  | cons e t ih =>
      by_cases hk : q e.1 = true
      · simp only [List.filter_cons, hk, if_true]
        by_cases hpe : p = e.1
        · have hbeq : (p == e.1) = true := beq_iff_eq.mpr hpe
          simp only [List.lookup, hbeq]
        · have hbeq : (p == e.1) = false := beq_eq_false_iff_ne.mpr hpe
          simp only [List.lookup, hbeq]
          exact ih
      · have hpe : ¬p = e.1 := by
          intro h
          rw [h] at hq
          exact hk hq
        have hbeq : (p == e.1) = false := beq_eq_false_iff_ne.mpr hpe
        simp only [List.filter_cons, hk, if_false]
        simp only [List.lookup, hbeq]
        exact ih

/-- Every collected key is outside the rectangle. -/
theorem mem_keysToRemove (c : List ((Int × Int) × ImageTex)) (mn mx : Int × Int)
    (k : Int × Int) (hk : k ∈ keysToRemove c mn mx) :
    chunkOutsideRange k mn mx = true := by
  unfold keysToRemove at hk
  obtain ⟨e, he, rfl⟩ := List.mem_map.mp hk
  exact (List.mem_filter.mp he).2

/-- Erasing keys that never match the head entry skips it. -/
theorem eraseKeys_cons_of_ne (e : (Int × Int) × ImageTex)
    (c : List ((Int × Int) × ImageTex)) (ks : List (Int × Int))
    (h : ∀ k ∈ ks, e.1 ≠ k) :
    eraseKeys (e :: c) ks = e :: eraseKeys c ks := by
  induction ks generalizing c with
  | nil => rfl
  | cons k kt ih =>
      have hek : ¬(e.1 == k) = true := by
        simpa using h k (List.mem_cons_self k kt)
      show eraseKeys (eraseKey (e :: c) k) kt = e :: eraseKeys (eraseKey c k) kt
      have hskip : eraseKey (e :: c) k = e :: eraseKey c k := by
        unfold eraseKey
        simp [List.eraseP_cons, hek]
      rw [hskip]
      exact ih (eraseKey c k) fun k hk => h k (List.mem_cons_of_mem _ hk)

/-- The collect-then-erase passes of cleanup_chunk_caches amount to
filtering the cache down to the entries inside the rectangle. -/
theorem eraseKeys_keysToRemove_eq_filter (c : List ((Int × Int) × ImageTex))
    (mn mx : Int × Int) :
    eraseKeys c (keysToRemove c mn mx) =
      c.filter fun e => !chunkOutsideRange e.1 mn mx := by
  induction c with
  | nil => rfl
  | cons e t ih =>
      by_cases hout : chunkOutsideRange e.1 mn mx = true
      · have hkeys : keysToRemove (e :: t) mn mx = e.1 :: keysToRemove t mn mx := by
          unfold keysToRemove
          simp [List.filter_cons, hout]
        rw [hkeys]
        show eraseKeys (eraseKey (e :: t) e.1) (keysToRemove t mn mx) = _
        have herase : eraseKey (e :: t) e.1 = t := by
          unfold eraseKey
          simp [List.eraseP_cons]
        rw [herase, ih]
        simp [List.filter_cons, hout]
      · have hkeys : keysToRemove (e :: t) mn mx = keysToRemove t mn mx := by
          unfold keysToRemove
          simp [List.filter_cons, hout]
        rw [hkeys]
        have hskip : eraseKeys (e :: t) (keysToRemove t mn mx) =
            e :: eraseKeys t (keysToRemove t mn mx) := by
          apply eraseKeys_cons_of_ne
          intro k hk hek
          have hko := mem_keysToRemove t mn mx k hk
          rw [← hek] at hko
          exact hout hko
        rw [hskip, ih]
        simp [List.filter_cons, hout]

/-- Vertex count of the generated grid. -/
theorem length_buildVertices (st : GenState) (cx cy : Int) (bd : BiomeData) (res : Nat) :
    (buildVertices st cx cy bd res).length = (res + 1) * (res + 1) := by
  unfold buildVertices
  rw [List.length_flatMap]
  simp [Function.comp_def, List.map_const, List.sum_replicate, smul_eq_mul]

/-- Index count of the generated grid: six indices per quad. -/
theorem length_buildIndices (res : Nat) :
    (buildIndices res).length = res * (res * 6) := by
  unfold buildIndices
  rw [List.length_flatMap]
  have hrow : ∀ z, ((List.range res).flatMap fun x => quadIndices res z x).length = res * 6 := by
    intro z
    rw [List.length_flatMap]
    have h6 : List.map (List.length ∘ fun x => quadIndices res z x) (List.range res) =
        List.map (fun _ => 6) (List.range res) := by
      simp [Function.comp_def, quadIndices]
    rw [h6]
    simp [List.map_const, List.sum_replicate, smul_eq_mul]
  have hmap : List.map (List.length ∘ fun z => (List.range res).flatMap fun x => quadIndices res z x)
      (List.range res) = List.map (fun _ => res * 6) (List.range res) := by
    simp only [Function.comp_def]
    exact List.map_congr_left fun z _ => hrow z
  rw [hmap]
  simp [List.map_const, List.sum_replicate, smul_eq_mul]

/-- Every generated index addresses a vertex of the grid. -/
theorem mem_buildIndices_lt (res i : Nat) (h : i ∈ buildIndices res) :
    i < (res + 1) * (res + 1) := by
  unfold buildIndices at h
  rw [List.mem_flatMap] at h
  obtain ⟨z, hz, h⟩ := h
  rw [List.mem_flatMap] at h
  obtain ⟨x, hx, h⟩ := h
  rw [List.mem_range] at hz
  rw [List.mem_range] at hx
  have hz1 : (z + 1) * (res + 1) ≤ res * (res + 1) :=
    Nat.mul_le_mul_right _ (by omega)
  have e1 : (z + 1) * (res + 1) = z * (res + 1) + res + 1 := by ring
  have e2 : (res + 1) * (res + 1) = res * (res + 1) + res + 1 := by ring
  simp only [quadIndices, List.mem_cons, List.not_mem_nil, or_false] at h
  rcases h with rfl | rfl | rfl | rfl | rfl | rfl <;> omega

/-- Claim C7: for every integer world coordinate and positive image
dimensions w and h, the wrap formula ((int)v % w + w) % w lands in
[0, w) on the x axis and [0, h) on the y axis, and sampling repeats with
period w respectively h, so the field tiles seamlessly. -/
theorem C7_wrap_formula (x y w h : Int) (hw : 0 < w) (hh : 0 < h) :
    0 ≤ wrapIndex x w ∧ wrapIndex x w < w ∧
    0 ≤ wrapIndex y h ∧ wrapIndex y h < h ∧
    wrapIndex (x + w) w = wrapIndex x w ∧ wrapIndex (y + h) h = wrapIndex y h :=
  ⟨wrapIndex_nonneg x w hw, wrapIndex_lt x w hw,
   wrapIndex_nonneg y h hh, wrapIndex_lt y h hh,
   wrapIndex_period x w hw, wrapIndex_period y h hh⟩

/-- Witness for C7 at x = -7, y = -3, w = 5, h = 4. -/
theorem C7_wrap_formula_witness :
    0 ≤ wrapIndex (-7) 5 ∧ wrapIndex (-7) 5 < 5 ∧
    0 ≤ wrapIndex (-3) 4 ∧ wrapIndex (-3) 4 < 4 ∧
    wrapIndex (-7 + 5) 5 = wrapIndex (-7) 5 ∧ wrapIndex (-3 + 4) 4 = wrapIndex (-3) 4 :=
  C7_wrap_formula (-7) (-3) 5 4 (by decide) (by decide)

/-- Counterexample for claim C4 as stated: with the configured chunk size
8, the chunk at distance 7 from the origin gets resolution 8 while the
farther chunk at distance 13 gets resolution 16, so the selected
resolution is not a non-increasing function of distance. -/
theorem C4_counterexample :
    (7 * 7 + 0 * 0 : Int) < 13 * 13 + 0 * 0 ∧
    lodResolution 8 7 0 = 8 ∧ lodResolution 8 13 0 = 16 ∧
    lodResolution 8 7 0 < lodResolution 8 13 0 := by decide

/-- Claim C4 (amended): provided the configured chunk size is at least
16, the selected resolution is a non-increasing function of the chunk
distance from the origin (distances compared by their squares, which is
equivalent). -/
theorem C4_lod_monotone (cs cx1 cy1 cx2 cy2 : Int) (hcs : 16 ≤ cs)
    (hd : cx1 * cx1 + cy1 * cy1 < cx2 * cx2 + cy2 * cy2) :
    lodResolution cs cx2 cy2 ≤ lodResolution cs cx1 cy1 := by
  unfold lodResolution
  generalize hg1 : cx1 * cx1 + cy1 * cy1 = n1 at hd ⊢
  generalize hg2 : cx2 * cx2 + cy2 * cy2 = n2 at hd ⊢
  dsimp only
  split_ifs <;> omega

/-- Witness for C4 at chunk size 16 and the chunks (7,0) and (13,0). -/
theorem C4_lod_monotone_witness :
    lodResolution 16 13 0 ≤ lodResolution 16 7 0 :=
  C4_lod_monotone 16 7 0 13 0 (by decide) (by decide)

/-- Claim C5: for every chunk coordinate and positive chunk size, the
mesh has exactly (resolution+1)^2 vertices, the index count is divisible
by 3, and every index addresses an existing vertex. -/
theorem C5_mesh_validity (st : GenState) (cx cy : Int) (bd : BiomeData)
    (hcs : 0 < st.chunkSize) :
    (generate_chunk_mesh st cx cy bd).1.length =
      ((lodResolution st.chunkSize cx cy).toNat + 1) *
        ((lodResolution st.chunkSize cx cy).toNat + 1) ∧
    (generate_chunk_mesh st cx cy bd).2.2.length % 3 = 0 ∧
    ∀ i ∈ (generate_chunk_mesh st cx cy bd).2.2,
      i < (generate_chunk_mesh st cx cy bd).1.length := by
  refine ⟨?_, ?_, ?_⟩
  · simp only [generate_chunk_mesh]
    exact length_buildVertices st cx cy bd _
  · simp only [generate_chunk_mesh]
    rw [length_buildIndices]
    generalize (lodResolution st.chunkSize cx cy).toNat = r
    have h3 : r * (r * 6) = 3 * (r * (r * 2)) := by ring
    rw [h3]
    omega
  · intro i hi
    simp only [generate_chunk_mesh] at hi ⊢
    rw [length_buildVertices]
    exact mem_buildIndices_lt _ i hi

/-- Witness for C5 at chunk size 1 and chunk (0,0): resolution 2, hence
9 vertices and 24 indices. -/
theorem C5_mesh_validity_witness :
    (generate_chunk_mesh baseState 0 0 emptyBiomeData).1.length = 9 ∧
    (generate_chunk_mesh baseState 0 0 emptyBiomeData).2.2.length % 3 = 0 :=
  ⟨((C5_mesh_validity baseState 0 0 emptyBiomeData (by decide)).1).trans (by decide),
   (C5_mesh_validity baseState 0 0 emptyBiomeData (by decide)).2.1⟩

/-- Claim C6: after cleanup_chunk_caches, a chunk coordinate outside the
inclusive rectangle has no cached blend or height artifact, and every
coordinate inside the rectangle sees exactly the cached artifacts it had
before. -/
theorem C6_eviction (st : GenState) (mn mx p : Int × Int) :
    (chunkOutsideRange p mn mx = true →
      (cleanup_chunk_caches st mn mx).blendCache.lookup p = none ∧
      (cleanup_chunk_caches st mn mx).heightCache.lookup p = none) ∧
    (chunkOutsideRange p mn mx = false →
      (cleanup_chunk_caches st mn mx).blendCache.lookup p = st.blendCache.lookup p ∧
      (cleanup_chunk_caches st mn mx).heightCache.lookup p = st.heightCache.lookup p) := by
  have hb : (cleanup_chunk_caches st mn mx).blendCache =
      st.blendCache.filter fun e => !chunkOutsideRange e.1 mn mx := by
    simp only [cleanup_chunk_caches]
    exact eraseKeys_keysToRemove_eq_filter _ _ _
  have hh : (cleanup_chunk_caches st mn mx).heightCache =
      st.heightCache.filter fun e => !chunkOutsideRange e.1 mn mx := by
    simp only [cleanup_chunk_caches]
    exact eraseKeys_keysToRemove_eq_filter _ _ _
  constructor
  · intro h
    rw [hb, hh]
    constructor
    · exact lookup_filter_eq_none st.blendCache
        (fun k => !chunkOutsideRange k mn mx) p (by simp [h])
    · exact lookup_filter_eq_none st.heightCache
        (fun k => !chunkOutsideRange k mn mx) p (by simp [h])
  · intro h
    rw [hb, hh]
    constructor
    · exact lookup_filter_eq_lookup st.blendCache
        (fun k => !chunkOutsideRange k mn mx) p (by simp [h])
    · exact lookup_filter_eq_lookup st.heightCache
        (fun k => !chunkOutsideRange k mn mx) p (by simp [h])

/-- Witness for C6: with artifacts cached for (0,0), (1,1) and (2,2),
evicting to the rectangle [(0,0), (1,1)] removes the (2,2) artifact and
keeps the two inside entries unchanged. -/
theorem C6_eviction_witness :
    (cleanup_chunk_caches stCache (0, 0) (1, 1)).blendCache.lookup (2, 2) = none ∧
    (cleanup_chunk_caches stCache (0, 0) (1, 1)).blendCache.lookup (1, 1) = some texB ∧
    (cleanup_chunk_caches stCache (0, 0) (1, 1)).heightCache.lookup (0, 0) = some texA :=
  ⟨((C6_eviction stCache (0, 0) (1, 1) (2, 2)).1 (by decide)).1,
   (((C6_eviction stCache (0, 0) (1, 1) (1, 1)).2 (by decide)).1).trans rfl,
   (((C6_eviction stCache (0, 0) (1, 1) (0, 0)).2 (by decide)).2).trans rfl⟩

/-- Claim C3: compute_height implements the section-based dead-zone
policy exactly: below blend factor 0.4 (= 2/5) the result is the first
section biome sample alone, above 0.6 (= 3/5) the second alone, and in
between the linear ramp with the weight (blendFactor - 0.4) / 0.2. -/
theorem C3_section_deadzone (st : GenState) (wx wy : ℚ) (bd : BiomeData) :
    compute_height st wx wy bd =
      if blendFactorOf st wx wy < 2/5 then
        sampleBiomeHeight st (sectionBiomePair (biomeColorAt st bd wx wy)).1 wx wy
      else if blendFactorOf st wx wy > 3/5 then
        sampleBiomeHeight st (sectionBiomePair (biomeColorAt st bd wx wy)).2 wx wy
      else
        sampleBiomeHeight st (sectionBiomePair (biomeColorAt st bd wx wy)).1 wx wy
            * (1 - (blendFactorOf st wx wy - 2/5) / (1/5))
          + sampleBiomeHeight st (sectionBiomePair (biomeColorAt st bd wx wy)).2 wx wy
            * ((blendFactorOf st wx wy - 2/5) / (1/5)) := by
  simp only [compute_height, deadZoneWeight]
  split_ifs with h1 h2
  · ring
  · ring
  · norm_num

/-- Claim C10: with every noise image holding red channel values inside
[0, 1], compute_height always returns a value inside [0, 1]: it is a
convex combination of two biome samples that are each either the 0
fallback or an in-range pixel red channel. -/
theorem C10_height_unit_interval (st : GenState) (wx wy : ℚ) (bd : BiomeData)
    (hst : st.noiseRedsInRange) :
    0 ≤ compute_height st wx wy bd ∧ compute_height st wx wy bd ≤ 1 := by
  obtain ⟨hw0, hw1⟩ := deadZoneWeight_mem (blendFactorOf st wx wy)
  obtain ⟨h10, h11⟩ :=
    sampleBiomeHeight_mem st hst (sectionBiomePair (biomeColorAt st bd wx wy)).1 wx wy
  obtain ⟨h20, h21⟩ :=
    sampleBiomeHeight_mem st hst (sectionBiomePair (biomeColorAt st bd wx wy)).2 wx wy
  simp only [compute_height]
  constructor <;> nlinarith

/-- Witness for C10 at a state with no images loaded. -/
theorem C10_height_unit_interval_witness :
    0 ≤ compute_height baseState 0 0 emptyBiomeData ∧
    compute_height baseState 0 0 emptyBiomeData ≤ 1 :=
  C10_height_unit_interval baseState 0 0 emptyBiomeData
    ⟨fun img h => by simp [baseState] at h,
     fun b img h => by simp [baseState] at h,
     fun b img h => by simp [baseState] at h⟩

/-- Counterexample for claim C1 as stated: bdZeroWeights carries a weight
map in which every weight is 0, yet compute_height returns 1/2 (not 0)
in a state whose rock noise image is cached with constant red 1, because
compute_height never reads the weight map. -/
theorem C1_counterexample :
    (bdZeroWeights.weights.all fun e => e.2.all fun p => p.2 == 0) = true ∧
    compute_height stRockOne 0 0 bdZeroWeights = 1/2 ∧ ¬((1 : ℚ)/2 = 0) := by
  refine ⟨by simp [bdZeroWeights], ?_, by norm_num⟩
  norm_num [compute_height, stRockOne, baseState, bdZeroWeights, biomeColorAt,
    blendFactorOf, deadZoneWeight, sectionBiomePair, sampleBiomeHeight, sampleImageRed,
    constOneImage, whiteColor, wrapIndex, cTrunc, clampI, List.lookup,
    Int.zero_tdiv, Int.zero_tmod, Int.tmod_self]
  exact fun h => absurd h (by decide)

/-- Claim C1 (amended): compute_height ignores the biome-weight map
entirely; for every biome_data, in particular one whose weights are all
zero, it returns 0 exactly when no biome noise texture is loaded, since
then both section biome samples fall back to 0. -/
theorem C1_zero_weights_height (st : GenState) (wx wy : ℚ) (bd : BiomeData)
    (h : ∀ b, st.hasBiomeTex b = false) :
    compute_height st wx wy bd = 0 := by
  simp only [compute_height, sampleBiomeHeight, h, Bool.false_eq_true, if_false]
  ring

/-- Witness for C1 at the empty state and the all-zero weight map. -/
theorem C1_zero_weights_height_witness :
    compute_height baseState 0 0 bdZeroWeights = 0 :=
  C1_zero_weights_height baseState 0 0 bdZeroWeights (fun b => rfl)

/-- Counterexample for claim C2 as stated: the color Color(1,0,0,1) is
the boss sentinel, yet compute_height at a position carrying that color
still blends the section biome images: two states that differ only in
the cached rock noise image give different heights, so no dedicated boss
field is sampled and blending is not bypassed. -/
theorem C2_counterexample :
    is_boss_area ⟨1, 0, 0, 1⟩ = true ∧
    compute_height stRockOne 0 0 bdBoss = 1/2 ∧
    compute_height stRockZero 0 0 bdBoss = 0 := by
  refine ⟨by norm_num [is_boss_area], ?_, ?_⟩
  · norm_num [compute_height, stRockOne, baseState, bdBoss, biomeColorAt,
      blendFactorOf, deadZoneWeight, sectionBiomePair, sampleBiomeHeight, sampleImageRed,
      constOneImage, whiteColor, wrapIndex, cTrunc, clampI, List.lookup,
      Int.zero_tdiv, Int.zero_tmod, Int.tmod_self]
    exact fun h => absurd h (by decide)
  · norm_num [compute_height, stRockZero, baseState, bdBoss, biomeColorAt,
      blendFactorOf, deadZoneWeight, sectionBiomePair, sampleBiomeHeight, sampleImageRed,
      constZeroImage, whiteColor, wrapIndex, cTrunc, clampI, List.lookup,
      Int.zero_tdiv, Int.zero_tmod, Int.tmod_self]
    exact fun h => absurd h (by decide)

/-- Claim C2 (amended): is_boss_area recognizes Color(1,0,0,1), but
compute_height never consults it: a position whose biome color is the
boss sentinel is blended like any section-2 color, as the dead-zone
combination of the rock and kelp samples. -/
theorem C2_boss_color_blended (st : GenState) (wx wy : ℚ) (bd : BiomeData)
    (h : biomeColorAt st bd wx wy = ⟨1, 0, 0, 1⟩) :
    compute_height st wx wy bd =
      sampleBiomeHeight st "rock" wx wy * (1 - deadZoneWeight (blendFactorOf st wx wy))
      + sampleBiomeHeight st "kelp" wx wy * deadZoneWeight (blendFactorOf st wx wy) := by
  have hpair : sectionBiomePair (⟨1, 0, 0, 1⟩ : Color) = ("rock", "kelp") := by
    norm_num [sectionBiomePair]
  simp only [compute_height, h, hpair]

/-- Witness for C2 at a boss-colored position of a size-1 chunk. -/
theorem C2_boss_color_blended_witness :
    compute_height stRockOne 0 0 bdBoss =
      sampleBiomeHeight stRockOne "rock" 0 0 * (1 - deadZoneWeight (blendFactorOf stRockOne 0 0))
      + sampleBiomeHeight stRockOne "kelp" 0 0 * deadZoneWeight (blendFactorOf stRockOne 0 0) :=
  C2_boss_color_blended stRockOne 0 0 bdBoss rfl

/-- Counterexample for claim C8 as stated: with the blend noise image
unavailable, the blend factor used is 0.5, and with a biome noise image
unavailable the biome sample is 0; both are strictly below 1, so the
fallback is never the claimed 1.0. -/
theorem C8_counterexample :
    baseState.blendNoiseImage = none ∧
    blendFactorOf baseState 0 0 = 1/2 ∧ blendFactorOf baseState 0 0 < 1 ∧
    sampleBiomeHeight baseState "rock" 0 0 = 0 ∧ sampleBiomeHeight baseState "rock" 0 0 < 1 := by
  norm_num [blendFactorOf, sampleBiomeHeight, baseState]

/-- Claim C8 (amended): when a backing noise image is unavailable the
sampler returns a defined fallback instead of failing, but the fallback
is 0.5 (mid value) for the blend field and 0 (no contribution) for a
biome field, not 1.0. -/
theorem C8_fallback_values (st : GenState) (wx wy : ℚ) (b : String)
    (hblend : st.blendNoiseImage = none)
    (hc : st.cachedBiomeNoiseImages b = none) (ht : st.biomeTexImage b = none) :
    blendFactorOf st wx wy = 1/2 ∧ sampleBiomeHeight st b wx wy = 0 := by
  constructor
  · simp [blendFactorOf, hblend]
  · unfold sampleBiomeHeight
    rw [hc, ht]
    split_ifs <;> rfl

/-- Witness for C8 at the empty state. -/
theorem C8_fallback_values_witness :
    blendFactorOf baseState 0 0 = 1/2 ∧ sampleBiomeHeight baseState "sand" 0 0 = 0 :=
  C8_fallback_values baseState 0 0 "sand" rfl rfl rfl

/-- Counterexample for claim C9 as stated: with the configured chunk size
0 (invalid) and biome data whose key extents would yield the derived
size 4, the heightmap texture call still returns a present artifact and
leaves the chunk size underived at 0 - it performs no size validation at
all, unlike the blend texture call. -/
theorem C9_counterexample :
    stZeroSize.chunkSize ≤ 0 ∧
    0 < find_chunk_size_from_data bdKeys33.topKeys ∧
    (generate_heightmap_texture stZeroSize 0 0 bdKeys33).1.isSome = true ∧
    (generate_heightmap_texture stZeroSize 0 0 bdKeys33).2.chunkSize = 0 :=
  ⟨by decide, by decide, rfl, rfl⟩

/-- Claim C9 (amended): only the biome-blend texture call guards the
chunk size: on a cache miss with a non-positive configured size it first
derives a size from the coordinate extents of the biome-data keys, and
when the derived size is still non-positive it aborts and returns an
absent artifact. -/
theorem C9_blend_size_guard (st : GenState) (cx cy : Int) (bd : BiomeData)
    (hmiss : st.blendCache.lookup (cx, cy) = none)
    (hcs : st.chunkSize ≤ 0) :
    (generate_biome_blend_texture st cx cy bd).2.chunkSize =
      find_chunk_size_from_data bd.topKeys ∧
    (find_chunk_size_from_data bd.topKeys ≤ 0 →
      (generate_biome_blend_texture st cx cy bd).1 = none) := by
  unfold generate_biome_blend_texture
  rw [hmiss]
  have hif : (if st.chunkSize ≤ 0 then find_chunk_size_from_data bd.topKeys
      else st.chunkSize) = find_chunk_size_from_data bd.topKeys := if_pos hcs
  simp only [hif]
  constructor
  · split_ifs with hF
    · rfl
    · cases hcol : bd.colors with
      | none => rfl
      | some colors =>
          cases hbni : st.blendNoiseImage with
          | none => rfl
          | some img => rfl
  · intro hF
    rw [if_pos hF]

/-- Witness for C9 at the empty-cache state with chunk size 0 and empty
biome data, whose derived size is 0: the blend texture call aborts. -/
theorem C9_blend_size_guard_witness :
    (generate_biome_blend_texture stZeroSize 0 0 emptyBiomeData).1 = none :=
  (C9_blend_size_guard stZeroSize 0 0 emptyBiomeData rfl (by decide)).2 (by decide)
